import Mathlib

/-!
# Verification of the VMC middleware protocol engine

Shallow embedding of the frame codec, command-queue store, response
correlator and poll-cycle engine of the vending-machine-controller
middleware (src/serial_controller.py, src/database.py, src/vmc_commands.py),
together with proofs and refutations of the specified properties.

Bytes are modelled as `Nat` (byte-range hypotheses are stated where the
claims speak of valid inputs); byte strings are `List Nat`.  Fallible
Python code (unguarded indexing, which raises `IndexError`) is modelled
with `Except String`.
-/

/-! ## Protocol constants (src/serial_controller.py, src/vmc_commands.py) -/

def STX : List Nat := [0xFA, 0xFB]

def CMD_POLL : Nat := 0x41
def CMD_ACK : Nat := 0x42
def CMD_MACHINE_STATUS : Nat := 0x52

def CMD_CHECK_SELECTION : Nat := 0x01
def CMD_DISPENSE : Nat := 0x03
def CMD_REPORT_PRODUCT : Nat := 0x11
def CMD_QUERY_STATUS : Nat := 0x51

/-! ## Frame codec (VMCController.calculate_checksum / build_packet / read_packet) -/

/-- `VMCController.calculate_checksum`: XOR of every byte. -/
def calculate_checksum (data : List Nat) : Nat :=
  data.foldl (· ^^^ ·) 0

/-- The final payload assembled by `VMCController.build_packet`: empty for the
control opcodes POLL and ACK, otherwise the pack number (the explicit
`use_pack_no` if given, else the controller's current one) prepended to the
payload. -/
def final_payload (cmd_byte : Nat) (payload : List Nat) (use_pack_no : Option Nat)
    (current_local_pack_no : Nat) : List Nat :=
  if cmd_byte = CMD_POLL ∨ cmd_byte = CMD_ACK then []
  else (use_pack_no.getD current_local_pack_no) :: payload

/-- `VMCController.build_packet`: header = STX ++ [cmd, length], followed by the
final payload and the XOR checksum of everything before it. -/
def build_packet (cmd_byte : Nat) (payload : List Nat) (use_pack_no : Option Nat)
    (current_local_pack_no : Nat) : List Nat :=
  let fp := final_payload cmd_byte payload use_pack_no current_local_pack_no
  let data_to_sum := (STX ++ [cmd_byte, fp.length]) ++ fp
  data_to_sum ++ [calculate_checksum data_to_sum]

/-- The sync-scanning loop of `VMCController.read_packet`: read bytes until a
0xFA is seen; then read one more byte and stop if it is 0xFB, otherwise keep
scanning after the two consumed bytes.  Returns the remaining stream. -/
def scan_sync : List Nat → Option (List Nat)
  | [] => none
  | b :: rest =>
    if b = 0xFA then
      match rest with
      | [] => none
      | b2 :: rest2 => if b2 = 0xFB then some rest2 else scan_sync rest2
    else scan_sync rest

/-- `VMCController.read_packet`: scan for the sync marker, read a 2-byte header
(opcode, length), exactly `length` payload bytes and one checksum byte; accept
only if the XOR of STX ++ header ++ payload equals the checksum byte.  Any
short read yields `none`. -/
def read_packet (stream : List Nat) : Option (Nat × List Nat) :=
  match scan_sync stream with
  | none => none
  | some rest =>
    match rest with
    | cmd :: length :: rest2 =>
      if length ≤ rest2.length then
        let payload := rest2.take length
        match rest2.drop length with
        | checksum :: _ =>
          if calculate_checksum ((STX ++ [cmd, length]) ++ payload) = checksum then
            some (cmd, payload)
          else none
        | [] => none
      else none
    | _ => none

/-- Flip bit `b` of the byte at index `i` (used to state the tamper-detection
property of the codec). -/
def flipBit (l : List Nat) (i b : Nat) : List Nat :=
  l.set i (l.getD i 0 ^^^ 2 ^ b)

/-! ## Data model (src/database.py schema, §3 of the spec) -/

/-- Command status strings used by the store
(PENDING/SENDING/ACKED/ACCEPTED/DISPENSING/COMPLETED/FAILED). -/
inductive CmdStatus where
  | PENDING
  | SENDING
  | ACKED
  | ACCEPTED
  | DISPENSING
  | COMPLETED
  | FAILED
deriving DecidableEq, Repr

/-- A parsed 0x11 product report (ResponseParser.parse_product_report). -/
structure ProductData where
  selection : Nat
  price : Nat
  inventory : Nat
  capacity : Nat
  product_id : Nat
  status : Nat
deriving DecidableEq, Repr

/-- The `parsed_info` dictionaries stored into `completion_details` by
`VMCController.parse_vmc_data` (selection-check, dispense-status and
machine-status shapes). -/
inductive Details where
  | selCheck (status_code : Nat) (message : String)
  | dispense (status : String) (code : Nat)
  | machine (bill_acceptor coin_acceptor card_reader temp_controller : String)
      (temperature : Nat) (door : String) (bill_change coin_change : Nat)
deriving DecidableEq, Repr

/-- A row of the `command_queue` table. -/
structure Command where
  id : Nat
  command_hex : List Nat
  status : CmdStatus
  retry_count : Nat
  assigned_pack_no : Option Nat
  response_payload : Option (List Nat)
  completion_details : Option Details
deriving DecidableEq, Repr

/-- The database: command queue, product projections, machine-status
projections (key, value, raw bytes) and the event log (type, raw bytes). -/
structure DB where
  command_queue : List Command
  products : List ProductData
  vmc_status : List (String × String × List Nat)
  event_log : List (String × List Nat)
deriving DecidableEq, Repr

/-! ## Store operations (src/database.py) -/

/-- Whether a command is selectable by `get_next_command`
(`status IN ('PENDING','SENDING')`). -/
def dispatchable (c : Command) : Bool :=
  c.status = CmdStatus.PENDING ∨ c.status = CmdStatus.SENDING

/-- The `ORDER BY CASE WHEN status = 'SENDING' THEN 1 ELSE 2 END` rank. -/
def statusRank (c : Command) : Nat :=
  if c.status = CmdStatus.SENDING then 1 else 2

/-- Strict SQL ordering `(rank, id)` used by `get_next_command`. -/
def orderBefore (a b : Command) : Bool :=
  statusRank a < statusRank b ∨ (statusRank a = statusRank b ∧ a.id < b.id)

/-- `DatabaseManager.get_next_command`: the dispatchable row minimising
`(rank, id)`, i.e. SENDING before PENDING, then ascending id, LIMIT 1. -/
def get_next_command (db : DB) : Option Command :=
  (db.command_queue.filter dispatchable).foldl
    (fun acc c =>
      match acc with
      | none => some c
      | some a => if orderBefore c a then some c else some a)
    none

/-- `DatabaseManager.mark_as_sending`. -/
def mark_as_sending (db : DB) (cmd_id pack_no : Nat) : DB :=
  { db with command_queue := db.command_queue.map (fun c =>
      if c.id = cmd_id then
        { c with status := CmdStatus.SENDING, assigned_pack_no := some pack_no }
      else c) }

/-- `DatabaseManager.update_command_result`: unconditionally overwrites
status, response payload and completion details of the matching row. -/
def update_command_result (db : DB) (cmd_id : Nat) (status : CmdStatus)
    (response_hex : Option (List Nat)) (details : Option Details) : DB :=
  { db with command_queue := db.command_queue.map (fun c =>
      if c.id = cmd_id then
        { c with status := status, response_payload := response_hex,
                 completion_details := details }
      else c) }

/-- `DatabaseManager.increment_retry`: bumps the count using the caller's
snapshot of `retry_count`; `FAILED` once the new count reaches 5, otherwise
back to `SENDING`.  Returns the updated store and the new status. -/
def increment_retry (db : DB) (cmd_id current_retries : Nat) : DB × CmdStatus :=
  let new_count := current_retries + 1
  let status := if new_count ≥ 5 then CmdStatus.FAILED else CmdStatus.SENDING
  ({ db with command_queue := db.command_queue.map (fun c =>
      if c.id = cmd_id then { c with retry_count := new_count, status := status }
      else c) }, status)

/-- `DatabaseManager.upsert_product` (INSERT ... ON CONFLICT(selection_id)
DO UPDATE). -/
def upsert_product (db : DB) (p : ProductData) : DB :=
  if db.products.any (fun q => q.selection = p.selection) then
    { db with products := db.products.map (fun q =>
        if q.selection = p.selection then p else q) }
  else
    { db with products := db.products ++ [p] }

/-- `DatabaseManager.update_machine_status` (INSERT ... ON CONFLICT(key)
DO UPDATE). -/
def update_machine_status (db : DB) (key value : String) (raw : List Nat) : DB :=
  if db.vmc_status.any (fun e => e.1 = key) then
    { db with vmc_status := db.vmc_status.map (fun e =>
        if e.1 = key then (key, value, raw) else e) }
  else
    { db with vmc_status := db.vmc_status ++ [(key, value, raw)] }

/-- `DatabaseManager.log_event`. -/
def log_event (db : DB) (event_type : String) (raw : List Nat) : DB :=
  { db with event_log := db.event_log ++ [(event_type, raw)] }

/-- Modelled from the spec: `enqueue(opcode, payload) -> id` (§6).  The
request surface calls `db.add_command(hex)` (src/app.py, src/new.py) but the
function itself is not defined in src/database.py; per the queue-store
contract a new row starts PENDING with retry 0 and no assigned sequence. -/
def add_command (db : DB) (new_id : Nat) (hex : List Nat) : DB :=
  { db with command_queue := db.command_queue ++
      [{ id := new_id, command_hex := hex, status := CmdStatus.PENDING,
         retry_count := 0, assigned_pack_no := none, response_payload := none,
         completion_details := none }] }

/-! ## Response parsing helpers (src/vmc_commands.py, src/serial_controller.py) -/

/-- Big-endian integer of a byte list (Python `int.from_bytes(..., 'big')`;
the empty list gives 0). -/
def int_from_bytes_be (l : List Nat) : Nat :=
  l.foldl (fun a b => a * 256 + b) 0

/-- `ResponseParser.parse_product_report`: fixed 11-byte record
`>HIBBHB` (selection 2, price 4, inventory 1, capacity 1, product id 2,
status 1); shorter bodies are rejected. -/
def parse_product_report (data_body : List Nat) : Option ProductData :=
  if data_body.length < 11 then none
  else some
    { selection := int_from_bytes_be (data_body.take 2)
      price := int_from_bytes_be ((data_body.drop 2).take 4)
      inventory := data_body.getD 6 0
      capacity := data_body.getD 7 0
      product_id := int_from_bytes_be ((data_body.drop 8).take 2)
      status := data_body.getD 10 0 }

/-- The dictionary built by `ResponseParser.parse_0x71_generic`. -/
structure GenericResult where
  sub_command : Nat
  op_type : Nat
  success : Option Bool
  message : Option String
  data_fields : Option (List (String × Nat))
deriving DecidableEq, Repr

/-- `ResponseParser.parse_0x71_generic`: `[SubCmd] [OpType] [Data...]`;
set confirmations for 0x12-0x15, slot-config record for 0x42, sales totals
for 0x43, bare sub-command/op-type otherwise. -/
def parse_0x71_generic (data_body : List Nat) : Option GenericResult :=
  if data_body.length < 3 then none
  else
    let sub_cmd := data_body.getD 0 0
    let op_type := data_body.getD 1 0
    let payload := data_body.drop 2
    if sub_cmd = 0x12 ∨ sub_cmd = 0x13 ∨ sub_cmd = 0x14 ∨ sub_cmd = 0x15 then
      let status := payload.getD 0 0xFF
      some { sub_command := sub_cmd, op_type := op_type,
             success := some (status = 0x00),
             message := some (if status = 0x00 then "Set Success" else "Set Failed"),
             data_fields := none }
    else if sub_cmd = 0x42 ∧ op_type = 0x00 then
      if payload.length ≥ 12 then
        some { sub_command := sub_cmd, op_type := op_type,
               success := none, message := none,
               data_fields := some
                 [("price", int_from_bytes_be (payload.take 4)),
                  ("inventory", payload.getD 4 0),
                  ("capacity", payload.getD 5 0),
                  ("product_id", int_from_bytes_be ((payload.drop 6).take 2)),
                  ("motor_mode", payload.getD 8 0)] }
      else
        some { sub_command := sub_cmd, op_type := op_type,
               success := none, message := none, data_fields := none }
    else if sub_cmd = 0x43 ∧ op_type = 0x00 then
      if payload.length ≥ 8 then
        some { sub_command := sub_cmd, op_type := op_type,
               success := none, message := none,
               data_fields := some
                 [("total_sales_count", int_from_bytes_be (payload.take 4)),
                  ("total_revenue", int_from_bytes_be ((payload.drop 4).take 4))] }
      else
        some { sub_command := sub_cmd, op_type := op_type,
               success := none, message := none, data_fields := none }
    else
      some { sub_command := sub_cmd, op_type := op_type,
             success := none, message := none, data_fields := none }

/-- Python `hex(n)` (lowercase hexadecimal with a 0x prefix). -/
def hexStr (n : Nat) : String :=
  "0x" ++ String.mk (Nat.toDigits 16 n)

/-- The selection-check `status_map` of `parse_vmc_data` (cmd 0x02). -/
def selection_status_map (code : Nat) : String :=
  if code = 0x01 then "Normal"
  else if code = 0x02 then "Out of Stock"
  else if code = 0x03 then "Invalid Selection"
  else if code = 0x04 then "Paused"
  else "Error"

/-- The dispense `status_map` of `parse_vmc_data` (cmd 0x04); unknown codes
render as Python `f"Code {hex(code)}"`. -/
def dispense_status_map (code : Nat) : String :=
  if code = 0x01 then "Dispensing..."
  else if code = 0x02 then "Success"
  else if code = 0x03 then "Jammed"
  else if code = 0x04 then "Motor Error"
  else if code = 0x10 then "Elevator Moving"
  else if code = 0x24 then "Success (Take)"
  else "Code " ++ hexStr code

/-- The machine-identifier bytes as stored: Python
`.decode('utf-8', errors='ignore').strip()`, approximated by keeping the
ASCII bytes and trimming whitespace (no claim depends on this field). -/
def machineIdString (bytes : List Nat) : String :=
  (String.mk (bytes.filterMap (fun b =>
    if b < 128 then some (Char.ofNat b) else none))).trim

/-! ## Poll-cycle engine (VMCController) -/

/-- The in-memory engine state: the store, the rotating pack number and the
single-slot pending-action context (`__init__`). -/
structure EngineState where
  db : DB
  current_local_pack_no : Nat
  pending_action_id : Option Nat
  pending_action_type : Option Nat
deriving DecidableEq, Repr

/-- Python truthiness of `self.pending_action_id` (None and 0 are falsy). -/
def truthy : Option Nat → Bool
  | none => false
  | some n => n ≠ 0

/-- `VMCController.parse_vmc_data`: the response correlator.  Mirrors the
source branch by branch; unguarded `data_body[0]` indexing on an empty body
is the Python `IndexError`, modelled as `Except.error`.  The money-notice
branch only logs (no store write); the fallback logs an event named
`CMD_<hex>`. -/
def parse_vmc_data (st : EngineState) (cmd : Nat) (payload : List Nat) :
    Except String EngineState :=
  let hex_data := payload
  let data_body := payload.drop 1
  if cmd = 0x21 then
    match data_body with
    | [] => Except.error "IndexError: data_body[0]"
    | _mode :: _rest => Except.ok st
  else if cmd = CMD_REPORT_PRODUCT then
    match parse_product_report data_body with
    | some product_data => Except.ok { st with db := upsert_product st.db product_data }
    | none => Except.ok st
  else if cmd = 0x02 then
    match data_body with
    | [] => Except.error "IndexError: data_body[0]"
    | status_code :: _ =>
      let parsed_info := Details.selCheck status_code (selection_status_map status_code)
      if truthy st.pending_action_id ∧ st.pending_action_type = some 0x03 then
        let status := if status_code = 0x01 then CmdStatus.ACCEPTED else CmdStatus.FAILED
        let db1 := update_command_result st.db (st.pending_action_id.getD 0)
          status (some hex_data) (some parsed_info)
        Except.ok { st with db := db1 }
      else if truthy st.pending_action_id ∧ st.pending_action_type = some 0x01 then
        let db1 := update_command_result st.db (st.pending_action_id.getD 0)
          CmdStatus.COMPLETED (some hex_data) (some parsed_info)
        Except.ok { st with db := db1 }
      else Except.ok st
  else if cmd = 0x04 then
    match data_body with
    | [] => Except.error "IndexError: data_body[0]"
    | status_code :: _ =>
      let parsed_info := Details.dispense (dispense_status_map status_code) status_code
      let is_success := status_code = 0x02 ∨ status_code = 0x24
      let is_intermediate := status_code ∈
        [0x01, 0x10, 0x11, 0x12, 0x13, 0x16, 0x19, 0x22, 0x23]
      if truthy st.pending_action_id then
        if is_intermediate then
          let db1 := update_command_result st.db (st.pending_action_id.getD 0)
            CmdStatus.DISPENSING (some hex_data) (some parsed_info)
          Except.ok { st with db := db1 }
        else
          let final_status := if is_success then CmdStatus.COMPLETED else CmdStatus.FAILED
          let db1 := update_command_result st.db (st.pending_action_id.getD 0)
            final_status (some hex_data) (some parsed_info)
          Except.ok { st with db := db1 }
      else Except.ok st
  else if cmd = CMD_MACHINE_STATUS then
    if data_body.length ≥ 24 then
      let temperature := data_body.getD 4 0
      let door := if data_body.getD 5 0 ≠ 0 then "Open" else "Closed"
      let bill_change := int_from_bytes_be ((data_body.drop 6).take 4)
      let coin_change := int_from_bytes_be ((data_body.drop 10).take 4)
      let machine_id := (data_body.drop 14).take 10
      let db1 := update_machine_status st.db "temperature" (toString temperature) hex_data
      let db2 := update_machine_status db1 "door" door hex_data
      let db3 := update_machine_status db2 "bill_change_amount" (toString bill_change) hex_data
      let db4 := update_machine_status db3 "coin_change_amount" (toString coin_change) hex_data
      let db5 := update_machine_status db4 "machine_id" (machineIdString machine_id) hex_data
      let parsed_info := Details.machine
        (if data_body.getD 0 0 ≠ 0 then "Error" else "Normal")
        (if data_body.getD 1 0 ≠ 0 then "Error" else "Normal")
        (if data_body.getD 2 0 ≠ 0 then "Error" else "Normal")
        (if data_body.getD 3 0 ≠ 0 then "Error" else "Normal")
        temperature door bill_change coin_change
      if truthy st.pending_action_id ∧ st.pending_action_type = some 0x51 then
        let db6 := update_command_result db5 (st.pending_action_id.getD 0)
          CmdStatus.COMPLETED (some hex_data) (some parsed_info)
        Except.ok { st with db := db6 }
      else Except.ok { st with db := db5 }
    else Except.ok st
  else
    Except.ok { st with db := log_event st.db ("CMD_" ++ hexStr cmd) hex_data }

/-- One iteration of `VMCController.run` on a decoded inbound packet.
For a POLL the engine first clears the pending context, dispatches the next
queued command (assigning the current pack number to a PENDING one, reusing
the stored one for a SENDING retry), transmits it and immediately performs a
blocking read for the transport ack (`ackFrame` is what that read returned);
a confirmed ack marks the command ACKED and advances the pack number
(`n % 255 + 1`), otherwise `increment_retry` runs and a FAILED outcome clears
`pending_action_id` (the type survives, as in the source).  Stray ACK frames
are ignored; every other frame goes to `parse_vmc_data`, whose exception
escapes the loop. -/
def step (st : EngineState) (packet : Nat × List Nat)
    (ackFrame : Option (Nat × List Nat)) : Except String EngineState :=
  let cmd := packet.1
  if cmd = CMD_POLL then
    let st0 : EngineState :=
      { st with pending_action_id := none, pending_action_type := none }
    match get_next_command st0.db with
    | some next_cmd =>
      match next_cmd.command_hex with
      | [] => Except.error "IndexError: raw_bytes[0]"
      | r0 :: _rest =>
        let cmd_id := next_cmd.id
        let db1 := if next_cmd.status = CmdStatus.PENDING then
            mark_as_sending st0.db cmd_id st.current_local_pack_no
          else st0.db
        let st1 : EngineState :=
          { st0 with db := db1, pending_action_id := some cmd_id,
                     pending_action_type := some r0 }
        let ackOk : Bool := match ackFrame with
          | some ack => ack.1 == CMD_ACK
          | none => false
        if ackOk then
          let db2 := update_command_result st1.db cmd_id CmdStatus.ACKED none none
          let pack2 := st.current_local_pack_no % 255 + 1
          Except.ok { st1 with db := db2, current_local_pack_no := pack2 }
        else
          let r := increment_retry st1.db cmd_id next_cmd.retry_count
          let pend2 := if r.2 = CmdStatus.FAILED then none else st1.pending_action_id
          Except.ok { st1 with db := r.1, pending_action_id := pend2 }
    | none => Except.ok st0
  else if cmd = CMD_ACK then
    Except.ok st
  else
    parse_vmc_data st cmd packet.2

/-- The engine's initial state (`__init__`): pack number 1, empty pending
context; the store starts with an empty queue. -/
def initState : EngineState :=
  { db := { command_queue := [], products := [], vmc_status := [], event_log := [] },
    current_local_pack_no := 1,
    pending_action_id := none,
    pending_action_type := none }

/-- Reachable engine states: the initial state, closed under request-surface
enqueues (add_command) and successful poll-loop iterations. -/
inductive Reachable : EngineState → Prop where
  | init : Reachable initState
  | enqueue (st : EngineState) (new_id : Nat) (hex : List Nat) :
      Reachable st → Reachable { st with db := add_command st.db new_id hex }
  | step (st st' : EngineState) (packet : Nat × List Nat)
      (ackFrame : Option (Nat × List Nat)) :
      Reachable st → step st packet ackFrame = Except.ok st' → Reachable st'

/-! ## Concrete fixtures used by the scenario theorems -/

/-- The empty store. -/
def emptyDb : DB :=
  { command_queue := [], products := [], vmc_status := [], event_log := [] }

/-- An engine state with an empty queue but a pending dispense context
(command id 1, opcode 0x03). -/
def pendingSt : EngineState :=
  { db := emptyDb, current_local_pack_no := 1,
    pending_action_id := some 1, pending_action_type := some 0x03 }

/-- A dispatched dispense command awaiting its ack (status SENDING). -/
def sendingRow : Command :=
  { id := 1, command_hex := [0x03, 0x00, 0x0A], status := CmdStatus.SENDING,
    retry_count := 1, assigned_pack_no := some 4, response_payload := none,
    completion_details := none }

/-- A store holding only `sendingRow`. -/
def sendingDb : DB :=
  { command_queue := [sendingRow], products := [], vmc_status := [], event_log := [] }

/-- The engine state around `sendingDb` (pack number 4, nothing pending). -/
def sendingSt : EngineState :=
  { db := sendingDb, current_local_pack_no := 4,
    pending_action_id := none, pending_action_type := none }

/-- A dispense command that already reached the terminal state COMPLETED. -/
def completedRow : Command :=
  { id := 1, command_hex := [0x03, 0x00, 0x0A], status := CmdStatus.COMPLETED,
    retry_count := 0, assigned_pack_no := some 1,
    response_payload := some [0x01, 0x02],
    completion_details := some (Details.dispense "Success" 0x02) }

/-- A store holding only `completedRow`. -/
def completedDb : DB :=
  { command_queue := [completedRow], products := [], vmc_status := [], event_log := [] }

/-- An engine state whose pending context still refers to the COMPLETED
command (as after a terminal dispense frame, which does not clear it). -/
def completedSt : EngineState :=
  { db := completedDb, current_local_pack_no := 2,
    pending_action_id := some 1, pending_action_type := some 0x03 }

/-- An acknowledged query-slot-config command (opcode 0x42) awaiting its
business-level 0x71 answer. -/
def queryRow : Command :=
  { id := 1, command_hex := [0x42, 0x00, 0x0A], status := CmdStatus.ACKED,
    retry_count := 0, assigned_pack_no := some 1, response_payload := none,
    completion_details := none }

/-- A store holding only `queryRow`. -/
def queryDb : DB :=
  { command_queue := [queryRow], products := [], vmc_status := [], event_log := [] }

/-- The engine state with the 0x42 query pending. -/
def querySt : EngineState :=
  { db := queryDb, current_local_pack_no := 2,
    pending_action_id := some 1, pending_action_type := some 0x42 }

/-- A well-formed 0x71 generic-return payload answering the 0x42 query:
sequence byte, sub-command 0x42, operation type 0x00, then a 12-byte
slot-config record. -/
def queryAnswerPayload : List Nat :=
  [0x01, 0x42, 0x00, 0x00, 0x00, 0x00, 0x96, 0x05, 0x0A, 0x00, 0x07, 0x00,
   0x00, 0x00, 0x00]

/-- The dropped-ack scenario state after `n` missed-ack poll cycles
(`n = 0`: freshly enqueued command with opcode byte `h0`, payload `t`,
engine pack number `p`).  Mirrors what the engine computes: the first poll
assigns pack `p` and marks SENDING; every miss bumps `retry_count`; the
fifth miss turns the command FAILED and clears `pending_action_id` while
the action type survives. -/
def scenState (h0 : Nat) (t : List Nat) (p n : Nat) : EngineState :=
  let row : Command :=
    { id := 1
      command_hex := h0 :: t
      status := if n = 0 then CmdStatus.PENDING
        else if n = 5 then CmdStatus.FAILED else CmdStatus.SENDING
      retry_count := n
      assigned_pack_no := if n = 0 then none else some p
      response_payload := none
      completion_details := none }
  { db := { command_queue := [row], products := [], vmc_status := [],
            event_log := [] }
    current_local_pack_no := p
    pending_action_id := if n = 0 ∨ n = 5 then none else some 1
    pending_action_type := if n = 0 then none else some h0 }

/-- The pack-number range invariant of §3: the rotating counter stays in
[1,255] and every sequence number ever assigned to a queued command is in
[1,255] (in particular never 0). -/
def SeqInv (st : EngineState) : Prop :=
  (1 ≤ st.current_local_pack_no ∧ st.current_local_pack_no ≤ 255) ∧
    ∀ c ∈ st.db.command_queue, ∀ q, c.assigned_pack_no = some q →
      1 ≤ q ∧ q ≤ 255

/-! ## Checksum algebra helpers -/

theorem foldl_xor_eq (a : Nat) (l : List Nat) :
    l.foldl (· ^^^ ·) a = a ^^^ l.foldl (· ^^^ ·) 0 := by
  induction l generalizing a with
  | nil => simp
  | cons x xs ih =>
    simp only [List.foldl_cons]
    rw [ih (a ^^^ x), ih (0 ^^^ x), Nat.zero_xor, Nat.xor_assoc]

theorem calculate_checksum_cons (x : Nat) (l : List Nat) :
    calculate_checksum (x :: l) = x ^^^ calculate_checksum l := by
  simp only [calculate_checksum, List.foldl_cons]
  rw [foldl_xor_eq, Nat.zero_xor]

theorem calculate_checksum_append (l m : List Nat) :
    calculate_checksum (l ++ m) =
      calculate_checksum l ^^^ calculate_checksum m := by
  induction l with
  | nil => simp [calculate_checksum]
  | cons x xs ih =>
    simp only [List.cons_append, calculate_checksum_cons, ih, Nat.xor_assoc]

theorem calculate_checksum_set (p : List Nat) (j : Nat) (hj : j < p.length) (d : Nat) :
    calculate_checksum (p.set j (p.getD j 0 ^^^ d)) =
      calculate_checksum p ^^^ d := by
  induction p generalizing j with
  | nil => simp at hj
  | cons x xs ih =>
    cases j with
    | zero =>
      simp only [List.set_cons_zero, List.getD_cons_zero, calculate_checksum_cons]
      rw [Nat.xor_assoc, Nat.xor_comm d (calculate_checksum xs), ← Nat.xor_assoc]
    | succ j =>
      simp only [List.set_cons_succ, List.getD_cons_succ, calculate_checksum_cons]
      rw [ih j (by simpa using hj), ← Nat.xor_assoc]

theorem xor_ne_self_of_ne_zero (a d : Nat) (hd : d ≠ 0) : a ^^^ d ≠ a := by
  intro h
  have h2 : a ^^^ (a ^^^ d) = a ^^^ a := by rw [h]
  rw [← Nat.xor_assoc, Nat.xor_self, Nat.zero_xor] at h2
  exact hd h2

/-! ## Frame codec lemmas -/

theorem scan_sync_sync (r : List Nat) : scan_sync (0xFA :: 0xFB :: r) = some r := by
  simp [scan_sync]

theorem scan_sync_skip (b : Nat) (hb : b ≠ 0xFA) (l : List Nat) :
    scan_sync (b :: l) = scan_sync l := by
  cases l with
  | nil => simp [scan_sync, hb]
  | cons x xs => simp [scan_sync, hb]

/-- `build_packet` written as an explicit byte stream. -/
theorem build_packet_eq (cmd : Nat) (payload : List Nat) (pno : Option Nat) (cur : Nat) :
    build_packet cmd payload pno cur =
      0xFA :: 0xFB :: cmd :: (final_payload cmd payload pno cur).length ::
        (final_payload cmd payload pno cur ++
          [calculate_checksum ((STX ++ [cmd, (final_payload cmd payload pno cur).length]) ++
            final_payload cmd payload pno cur)]) := by
  simp [build_packet, STX]

/-- Decoding a stream of the exact framed shape reduces to the checksum test. -/
theorem read_packet_shape (c : Nat) (p : List Nat) (k : Nat) :
    read_packet (0xFA :: 0xFB :: c :: p.length :: (p ++ [k])) =
      if calculate_checksum ((STX ++ [c, p.length]) ++ p) = k then some (c, p) else none := by
  have hle : p.length ≤ (p ++ [k]).length := by simp
  simp only [read_packet, scan_sync_sync, if_pos hle, List.take_left, List.drop_left]

/-- A leading non-0xFA byte is skipped by the sync scanner. -/
theorem read_packet_skip (s : Nat) (hs : s ≠ 0xFA) (l : List Nat) :
    read_packet (s :: l) = read_packet l := by
  simp only [read_packet, scan_sync_skip s hs]

/-- Unconditional round trip of the codec. -/
theorem read_build_packet (cmd : Nat) (payload : List Nat) (pno : Option Nat) (cur : Nat) :
    read_packet (build_packet cmd payload pno cur) =
      some (cmd, final_payload cmd payload pno cur) := by
  rw [build_packet_eq, read_packet_shape, if_pos rfl]

/-- XOR-ing one list element changes the checksum by exactly that mask. -/
theorem checksum_update_mid (A B : List Nat) (x d : Nat) :
    calculate_checksum (A ++ (x ^^^ d) :: B) =
      calculate_checksum (A ++ x :: B) ^^^ d := by
  simp only [calculate_checksum_append, calculate_checksum_cons]
  rw [Nat.xor_comm x d, Nat.xor_assoc d x, Nat.xor_comm d]
  rw [← Nat.xor_assoc]

theorem two_pow_ne_zero (b : Nat) : (2 : Nat) ^ b ≠ 0 :=
  pow_ne_zero b (by norm_num)

/-- Flipping a bit of the opcode byte, of any final-payload byte, or of the
checksum byte of a correctly framed stream makes `read_packet` reject it. -/
theorem read_packet_flip_none (c : Nat) (p : List Nat) (k i b : Nat)
    (hk : calculate_checksum ((STX ++ [c, p.length]) ++ p) = k)
    (hi : i = 2 ∨ (4 ≤ i ∧ i < p.length + 5)) :
    read_packet (flipBit (0xFA :: 0xFB :: c :: p.length :: (p ++ [k])) i b) = none := by
  rcases hi with rfl | ⟨h4, hlt⟩
  · have hset : flipBit (0xFA :: 0xFB :: c :: p.length :: (p ++ [k])) 2 b =
        0xFA :: 0xFB :: (c ^^^ 2 ^ b) :: p.length :: (p ++ [k]) := by
      simp [flipBit]
    rw [hset, read_packet_shape, if_neg]
    have hA : (STX ++ [c ^^^ 2 ^ b, p.length]) ++ p =
        STX ++ (c ^^^ 2 ^ b) :: (p.length :: p) := by simp
    have hB : (STX ++ [c, p.length]) ++ p = STX ++ c :: (p.length :: p) := by simp
    rw [hA, checksum_update_mid, ← hB, hk]
    exact xor_ne_self_of_ne_zero k (2 ^ b) (two_pow_ne_zero b)
  · obtain ⟨j, rfl⟩ : ∃ j, i = j + 4 := ⟨i - 4, by omega⟩
    have hj : j < p.length + 1 := by omega
    have hset : flipBit (0xFA :: 0xFB :: c :: p.length :: (p ++ [k])) (j + 4) b =
        0xFA :: 0xFB :: c :: p.length ::
          ((p ++ [k]).set j ((p ++ [k]).getD j 0 ^^^ 2 ^ b)) := by
      simp [flipBit]
    rw [hset]
    rcases Nat.lt_or_ge j p.length with hjp | hjp
    · have hgd : (p ++ [k]).getD j 0 = p.getD j 0 := List.getD_append p [k] 0 j hjp
      have hst : (p ++ [k]).set j (p.getD j 0 ^^^ 2 ^ b) =
          p.set j (p.getD j 0 ^^^ 2 ^ b) ++ [k] := by
        rw [List.set_append, if_pos hjp]
      rw [hgd, hst]
      have hlen : p.length = (p.set j (p.getD j 0 ^^^ 2 ^ b)).length := by simp
      rw [show (0xFA :: 0xFB :: c :: p.length ::
            (p.set j (p.getD j 0 ^^^ 2 ^ b) ++ [k])) =
          (0xFA :: 0xFB :: c :: (p.set j (p.getD j 0 ^^^ 2 ^ b)).length ::
            (p.set j (p.getD j 0 ^^^ 2 ^ b) ++ [k])) from by rw [← hlen]]
      rw [read_packet_shape, if_neg]
      rw [calculate_checksum_append, calculate_checksum_set p j hjp (2 ^ b)]
      rw [← hlen, ← Nat.xor_assoc, ← calculate_checksum_append, hk]
      exact xor_ne_self_of_ne_zero k (2 ^ b) (two_pow_ne_zero b)
    · have hje : j = p.length := by omega
      subst hje
      have hgd : (p ++ [k]).getD p.length 0 = k := by
        rw [List.getD_append_right p [k] 0 p.length (le_refl _)]
        simp
      have hst : (p ++ [k]).set p.length (k ^^^ 2 ^ b) = p ++ [k ^^^ 2 ^ b] := by
        rw [List.set_append, if_neg (by omega)]
        simp
      rw [hgd, hst, read_packet_shape, if_neg]
      rw [hk]
      intro h
      exact xor_ne_self_of_ne_zero k (2 ^ b) (two_pow_ne_zero b) h.symm

/-! ## Claim C5: re-synchronization on a stray byte -/

/-- C5 (counterexample): the claim says decode finds the valid frame after any
single stray byte, but a stray 0xFA makes the scanner consume the real sync
marker's first byte: the following validly encoded POLL frame (second
conjunct shows it decodes on its own) is lost and decode returns no frame. -/
theorem stray_sync_byte_loses_frame :
    read_packet (0xFA :: build_packet CMD_POLL [] none 1) = none ∧
      read_packet (build_packet CMD_POLL [] none 1) = some (CMD_POLL, []) := by
  constructor
  · decide
  · decide

/-- C5 (amended): for every stray byte other than 0xFA, decode still finds
and returns the validly encoded frame that follows it. -/
theorem stray_non_sync_byte_resyncs (s cmd : Nat) (payload : List Nat)
    (pno : Option Nat) (cur : Nat) (hs : s ≠ 0xFA)
    (hcmd : cmd < 256) (hpl : ∀ x ∈ payload, x < 256)
    (hplen : payload.length ≤ 254)
    (hseq : ∀ q, pno = some q → 1 ≤ q ∧ q ≤ 255) :
    read_packet (s :: build_packet cmd payload pno cur) =
      some (cmd, final_payload cmd payload pno cur) := by
  rw [read_packet_skip s hs, read_build_packet]

/-- Witness for C5 at stray byte 0x00 and the dispense frame 0x03/[0x00,0x0A]. -/
theorem stray_non_sync_byte_resyncs_witness :
    read_packet (0x00 :: build_packet 0x03 [0x00, 0x0A] (some 1) 1) =
      some (0x03, final_payload 0x03 [0x00, 0x0A] (some 1) 1) :=
  stray_non_sync_byte_resyncs 0x00 0x03 [0x00, 0x0A] (some 1) 1 (by decide)
    (by decide) (by decide) (by decide)
    (fun q hq => by cases hq; exact ⟨le_refl 1, by norm_num⟩)

/-! ## Claim C7: codec round trip and tamper detection -/

/-- C7 (counterexample): the claim says a single bit flipped anywhere in the
encoded bytes makes decode return no frame, but flipping bit 1 of the length
byte (index 3) of the encoded frame for opcode 0x03, payload [0x02, 0x00],
sequence 1 still yields a decoded frame. -/
theorem length_byte_flip_still_decodes :
    read_packet (flipBit (build_packet 0x03 [0x02, 0x00] (some 0x01) 1) 3 1) =
      some (0x03, [0x01]) := by
  decide

/-- C7 (amended): for every valid (opcode, payload, sequence), decoding the
encoded frame returns the original opcode and final payload, and a single
bit flip in the opcode byte, in any byte of the final payload (the sequence
byte included) or in the checksum byte causes decode to return no frame;
flips in the sync marker or the length byte are not always detected. -/
theorem codec_roundtrip_and_tamper_detection (cmd : Nat) (payload : List Nat)
    (pno : Option Nat) (cur : Nat)
    (hcmd : cmd < 256) (hpl : ∀ x ∈ payload, x < 256)
    (hplen : payload.length ≤ 254)
    (hseq : ∀ q, pno = some q → 1 ≤ q ∧ q ≤ 255) :
    read_packet (build_packet cmd payload pno cur) =
        some (cmd, final_payload cmd payload pno cur) ∧
      ∀ i b, i = 2 ∨ (4 ≤ i ∧ i < (build_packet cmd payload pno cur).length) →
        read_packet (flipBit (build_packet cmd payload pno cur) i b) = none := by
  refine ⟨read_build_packet cmd payload pno cur, ?_⟩
  intro i b hi
  have hlen : (build_packet cmd payload pno cur).length =
      (final_payload cmd payload pno cur).length + 5 := by
    rw [build_packet_eq]
    simp only [List.length_cons, List.length_append, List.length_nil]
  rw [hlen] at hi
  rw [build_packet_eq]
  exact read_packet_flip_none cmd (final_payload cmd payload pno cur) _ i b rfl hi

/-- Witness for C7 at opcode 0x03, payload [0x00, 0x0A], sequence 1. -/
theorem codec_roundtrip_and_tamper_detection_witness :
    (read_packet (build_packet 0x03 [0x00, 0x0A] (some 1) 1) =
        some (0x03, final_payload 0x03 [0x00, 0x0A] (some 1) 1) ∧
      ∀ i b, i = 2 ∨ (4 ≤ i ∧ i < (build_packet 0x03 [0x00, 0x0A] (some 1) 1).length) →
        read_packet (flipBit (build_packet 0x03 [0x00, 0x0A] (some 1) 1) i b) = none) :=
  codec_roundtrip_and_tamper_detection 0x03 [0x00, 0x0A] (some 1) 1 (by decide)
    (by decide) (by decide)
    (fun q hq => by cases hq; exact ⟨le_refl 1, by norm_num⟩)

theorem foldl_pick_mem (l : List Command) (acc : Option Command) (c : Command)
    (h : l.foldl
      (fun acc c =>
        match acc with
        | none => some c
        | some a => if orderBefore c a then some c else some a)
      acc = some c) :
    acc = some c ∨ c ∈ l := by
  induction l generalizing acc with
  | nil => exact Or.inl h
  | cons x xs ih =>
    simp only [List.foldl_cons] at h
    rcases ih _ h with hacc | hmem
    · cases acc with
      | none =>
        simp only [] at hacc
        cases hacc
        exact Or.inr (by simp)
      | some a =>
        simp only [] at hacc
        by_cases hb : orderBefore x a
        · rw [if_pos hb] at hacc
          cases hacc
          exact Or.inr (by simp)
        · rw [if_neg hb] at hacc
          exact Or.inl hacc
    · exact Or.inr (List.mem_cons_of_mem x hmem)

theorem get_next_command_mem (db : DB) (c : Command)
    (h : get_next_command db = some c) :
    c ∈ db.command_queue ∧ dispatchable c = true := by
  unfold get_next_command at h
  rcases foldl_pick_mem _ none c h with h0 | hmem
  · exact absurd h0 (by simp)
  · have hf := List.mem_filter.mp hmem
    exact ⟨hf.1, hf.2⟩

theorem update_machine_status_queue (db : DB) (k v : String) (r : List Nat) :
    (update_machine_status db k v r).command_queue = db.command_queue := by
  unfold update_machine_status
  split <;> rfl

theorem upsert_product_queue (db : DB) (p : ProductData) :
    (upsert_product db p).command_queue = db.command_queue := by
  unfold upsert_product
  split <;> rfl

/-- The shape of every successful `parse_vmc_data` outcome: the pending
context is untouched and the command queue is either unchanged or rewritten
by exactly one `update_command_result`. -/
theorem parse_vmc_data_spec (st : EngineState) (cmd : Nat) (payload : List Nat)
    (st' : EngineState)
    (h : parse_vmc_data st cmd payload = Except.ok st') :
    st'.pending_action_id = st.pending_action_id ∧
      st'.pending_action_type = st.pending_action_type ∧
      st'.current_local_pack_no = st.current_local_pack_no ∧
      (st'.db.command_queue = st.db.command_queue ∨
        ∃ i s r d, st'.db.command_queue = st.db.command_queue.map
          (fun c => if c.id = i then
            { c with status := s, response_payload := r, completion_details := d }
          else c)) := by
  unfold parse_vmc_data at h
  by_cases h21 : cmd = 0x21
  · rw [if_pos h21] at h
    cases hl : payload.drop 1 with
    | nil =>
      simp only [hl] at h
      exact Except.noConfusion h
    | cons a l =>
      simp only [hl] at h
      cases h
      exact ⟨rfl, rfl, rfl, Or.inl rfl⟩
  · rw [if_neg h21] at h
    by_cases h11 : cmd = CMD_REPORT_PRODUCT
    · rw [if_pos h11] at h
      cases hp : parse_product_report (payload.drop 1) with
      | none =>
        simp only [hp] at h
        cases h
        exact ⟨rfl, rfl, rfl, Or.inl rfl⟩
      | some pd =>
        simp only [hp] at h
        cases h
        exact ⟨rfl, rfl, rfl, Or.inl (upsert_product_queue st.db pd)⟩
    · rw [if_neg h11] at h
      by_cases h02 : cmd = 0x02
      · rw [if_pos h02] at h
        cases hl : payload.drop 1 with
        | nil =>
          simp only [hl] at h
          exact Except.noConfusion h
        | cons a l =>
          simp only [hl] at h
          by_cases hc1 : truthy st.pending_action_id = true ∧
              st.pending_action_type = some 0x03
          · rw [if_pos hc1] at h
            cases h
            refine ⟨rfl, rfl, rfl, Or.inr ⟨_, _, _, _, rfl⟩⟩
          · rw [if_neg hc1] at h
            by_cases hc2 : truthy st.pending_action_id = true ∧
                st.pending_action_type = some 0x01
            · rw [if_pos hc2] at h
              cases h
              refine ⟨rfl, rfl, rfl, Or.inr ⟨_, _, _, _, rfl⟩⟩
            · rw [if_neg hc2] at h
              cases h
              exact ⟨rfl, rfl, rfl, Or.inl rfl⟩
      · rw [if_neg h02] at h
        by_cases h04 : cmd = 0x04
        · rw [if_pos h04] at h
          cases hl : payload.drop 1 with
          | nil =>
            simp only [hl] at h
            exact Except.noConfusion h
          | cons a l =>
            simp only [hl] at h
            by_cases hc1 : truthy st.pending_action_id = true
            · rw [if_pos hc1] at h
              by_cases hint : a ∈ [0x01, 0x10, 0x11, 0x12, 0x13, 0x16, 0x19, 0x22, 0x23]
              · rw [if_pos hint] at h
                cases h
                refine ⟨rfl, rfl, rfl, Or.inr ⟨_, _, _, _, rfl⟩⟩
              · rw [if_neg hint] at h
                cases h
                refine ⟨rfl, rfl, rfl, Or.inr ⟨_, _, _, _, rfl⟩⟩
            · rw [if_neg hc1] at h
              cases h
              exact ⟨rfl, rfl, rfl, Or.inl rfl⟩
        · rw [if_neg h04] at h
          by_cases h52 : cmd = CMD_MACHINE_STATUS
          · rw [if_pos h52] at h
            by_cases hlen : (payload.drop 1).length ≥ 24
            · rw [if_pos hlen] at h
              by_cases hc1 : truthy st.pending_action_id = true ∧
                  st.pending_action_type = some 0x51
              · rw [if_pos hc1] at h
                cases h
                refine ⟨rfl, rfl, rfl, Or.inr
                  ⟨st.pending_action_id.getD 0, CmdStatus.COMPLETED, some payload,
                    some (Details.machine
                      (if (payload.drop 1).getD 0 0 ≠ 0 then "Error" else "Normal")
                      (if (payload.drop 1).getD 1 0 ≠ 0 then "Error" else "Normal")
                      (if (payload.drop 1).getD 2 0 ≠ 0 then "Error" else "Normal")
                      (if (payload.drop 1).getD 3 0 ≠ 0 then "Error" else "Normal")
                      ((payload.drop 1).getD 4 0)
                      (if (payload.drop 1).getD 5 0 ≠ 0 then "Open" else "Closed")
                      (int_from_bytes_be (((payload.drop 1).drop 6).take 4))
                      (int_from_bytes_be (((payload.drop 1).drop 10).take 4))), ?_⟩⟩
                simp only [update_command_result, update_machine_status_queue]
              · rw [if_neg hc1] at h
                cases h
                refine ⟨rfl, rfl, rfl, Or.inl ?_⟩
                simp only [update_machine_status_queue]
            · rw [if_neg hlen] at h
              cases h
              exact ⟨rfl, rfl, rfl, Or.inl rfl⟩
          · rw [if_neg h52] at h
            cases h
            exact ⟨rfl, rfl, rfl, Or.inl rfl⟩

/-! ## Claim C1: data frames and the pending context -/

/-- C1 (amended): receiving a data (non-POLL, non-ack) frame never changes the
pending action context: after a successful poll-loop iteration on any such
frame, `pending_action_id` and `pending_action_type` are exactly what they
were, whether or not the frame resolved the pending command.  (The context
does not, however, survive a subsequent POLL: see the counterexample.) -/
theorem data_frame_preserves_pending (st st' : EngineState) (cmd : Nat)
    (payload : List Nat) (ackFrame : Option (Nat × List Nat))
    (hpoll : cmd ≠ CMD_POLL) (hack : cmd ≠ CMD_ACK)
    (h : step st (cmd, payload) ackFrame = Except.ok st') :
    st'.pending_action_id = st.pending_action_id ∧
      st'.pending_action_type = st.pending_action_type := by
  have h2 : parse_vmc_data st cmd payload = Except.ok st' := by
    simpa [step, hpoll, hack] using h
  have hs := parse_vmc_data_spec st cmd payload st' h2
  exact ⟨hs.1, hs.2.1⟩

/-- Witness for C1 at a money-notice frame received in `pendingSt`. -/
theorem data_frame_preserves_pending_witness :
    pendingSt.pending_action_id = pendingSt.pending_action_id ∧
      pendingSt.pending_action_type = pendingSt.pending_action_type :=
  data_frame_preserves_pending pendingSt pendingSt 0x21
    [0x01, 0x00, 0x00, 0x00, 0x00, 0x64] none (by decide) (by decide) rfl

/-- C1 (counterexample): the claim says the context survives unrelated events
such as a subsequent POLL, but the engine clears the pending context at the
start of every POLL: here a POLL with an empty queue drops the pending
dispense context (id 1, opcode 0x03) entirely. -/
theorem poll_clears_pending :
    step pendingSt (CMD_POLL, []) none =
        Except.ok { pendingSt with pending_action_id := none, pending_action_type := none } ∧
      pendingSt.pending_action_id = some 1 :=
  ⟨rfl, rfl⟩

/-! ## Claim C4: totality of the poll loop -/

/-- C4: the poll loop is not total.  A money-notice (0x21), selection-check
(0x02) or dispense-status (0x04) frame whose payload holds only the sequence
byte (so the data body is empty) makes `parse_vmc_data` index an empty list;
`run` has no handler around the parser, so the IndexError escapes the loop
instead of the malformed update being rejected. -/
theorem malformed_frame_crashes_loop :
    step initState (0x21, [0x01]) none = Except.error "IndexError: data_body[0]" ∧
      step initState (0x02, [0x01]) none = Except.error "IndexError: data_body[0]" ∧
      step initState (0x04, [0x01]) none = Except.error "IndexError: data_body[0]" :=
  ⟨rfl, rfl, rfl⟩

/-! ## Claim C3: generic multiplexed returns -/

/-- C3: a generic multiplexed return (0x71) is never correlated.
`parse_0x71_generic` would decode the sub-command 0x42 matching the pending
command's opcode (third conjunct), but the poll loop has no 0x71 branch: the
frame falls through to the unrecognized-opcode fallback, an event named
CMD_0x71 is logged, and the pending command row is left untouched (second
conjunct). -/
theorem generic_return_not_correlated :
    parse_vmc_data querySt 0x71 queryAnswerPayload =
        Except.ok { querySt with db := log_event querySt.db "CMD_0x71" queryAnswerPayload } ∧
      (log_event querySt.db "CMD_0x71" queryAnswerPayload).command_queue =
        querySt.db.command_queue ∧
      (parse_0x71_generic (queryAnswerPayload.drop 1)).map GenericResult.sub_command =
        some 0x42 ∧
      querySt.pending_action_type = some 0x42 :=
  ⟨rfl, rfl, rfl, rfl⟩

/-! ## Claim C10: selection-check with a pending check-selection command -/

/-- C10: when a selection-check frame (0x02) arrives while the pending
command's opcode is the check-selection opcode 0x01, the correlator
terminalizes that command to COMPLETED regardless of the 1-byte status code,
attaching the decoded status. -/
theorem selection_check_completes_check_command (st : EngineState)
    (i seqb code : Nat) (rest : List Nat)
    (hid : st.pending_action_id = some i) (hiz : i ≠ 0)
    (hty : st.pending_action_type = some 0x01) :
    ∃ st', parse_vmc_data st 0x02 (seqb :: code :: rest) = Except.ok st' ∧
      st'.db = update_command_result st.db i CmdStatus.COMPLETED
        (some (seqb :: code :: rest))
        (some (Details.selCheck code (selection_status_map code))) ∧
      st'.pending_action_id = some i ∧ st'.pending_action_type = some 0x01 := by
  have htr : truthy st.pending_action_id = true := by
    rw [hid]
    simpa [truthy] using hiz
  have hmain : parse_vmc_data st 0x02 (seqb :: code :: rest) =
      Except.ok { st with db := update_command_result st.db i CmdStatus.COMPLETED (some (seqb :: code :: rest)) (some (Details.selCheck code (selection_status_map code))) } := by
    simp only [parse_vmc_data, List.drop_succ_cons, List.drop_zero]
    rw [if_neg (by decide), if_neg (by decide), if_pos trivial]
    rw [if_neg (fun hcon => by rw [hty] at hcon; exact absurd hcon.2 (by decide))]
    rw [if_pos ⟨htr, hty⟩, hid]
    rfl
  refine ⟨_, hmain, rfl, hid, hty⟩

/-- Witness for C10: a pending 0x01 command completed by a selection-check
frame carrying the out-of-stock code 0x02. -/
theorem selection_check_completes_check_command_witness :
    ∃ st', parse_vmc_data { db := emptyDb, current_local_pack_no := 1, pending_action_id := some 1, pending_action_type := some 0x01 } 0x02 (0x01 :: 0x02 :: []) = Except.ok st' ∧
      st'.db = update_command_result emptyDb 1 CmdStatus.COMPLETED
        (some (0x01 :: 0x02 :: []))
        (some (Details.selCheck 0x02 (selection_status_map 0x02))) ∧
      st'.pending_action_id = some 1 ∧ st'.pending_action_type = some 0x01 :=
  selection_check_completes_check_command
    { db := emptyDb, current_local_pack_no := 1, pending_action_id := some 1, pending_action_type := some 0x01 }
    1 0x01 0x02 [] rfl (by decide) rfl

/-! ## Claim C6: immutability of terminal command states -/

/-- C6 (counterexample): terminal states are not immutable.  The command in
`completedSt` is COMPLETED, but a later intermediate dispense-status frame
(code 0x01) processed while the same pending context is set rewrites it to
DISPENSING, changing both its status and result fields again. -/
theorem terminal_status_overwritten :
    completedSt.db.command_queue.map Command.status = [CmdStatus.COMPLETED] ∧
      parse_vmc_data completedSt 0x04 [0x02, 0x01] =
        Except.ok { completedSt with db := update_command_result completedDb 1 CmdStatus.DISPENSING (some [0x02, 0x01]) (some (Details.dispense "Dispensing..." 0x01)) } ∧
      (update_command_result completedDb 1 CmdStatus.DISPENSING (some [0x02, 0x01]) (some (Details.dispense "Dispensing..." 0x01))).command_queue.map Command.status =
        [CmdStatus.DISPENSING] :=
  ⟨rfl, rfl, rfl⟩

/-- C6 (amended): the store never guards terminal states:
`update_command_result` overwrites the status and result fields of the
matching row unconditionally, whatever its current status (COMPLETED and
FAILED included); any later response frame correlated against the same
pending context therefore changes them again. -/
theorem update_command_result_overwrites (db : DB) (c : Command) (i : Nat)
    (s : CmdStatus) (resp : Option (List Nat)) (det : Option Details)
    (hc : c ∈ db.command_queue) (hid : c.id = i) :
    { c with status := s, response_payload := resp, completion_details := det }
      ∈ (update_command_result db i s resp det).command_queue := by
  unfold update_command_result
  refine List.mem_map.mpr ⟨c, hc, ?_⟩
  rw [if_pos hid]

/-- Witness for C6: overwriting the COMPLETED `completedRow` with DISPENSING. -/
theorem update_command_result_overwrites_witness :
    { completedRow with status := CmdStatus.DISPENSING, response_payload := some [0x02, 0x01], completion_details := some (Details.dispense "Dispensing..." 0x01) }
      ∈ (update_command_result completedDb 1 CmdStatus.DISPENSING (some [0x02, 0x01]) (some (Details.dispense "Dispensing..." 0x01))).command_queue :=
  update_command_result_overwrites completedDb completedRow 1 CmdStatus.DISPENSING
    (some [0x02, 0x01]) (some (Details.dispense "Dispensing..." 0x01))
    (by decide) rfl

/-! ## Claim C2: missed-ack handling -/

/-- C2 (counterexample): the claim says missed-ack detection is deferred to
the next poll cycle (the engine transmits, records an awaiting-ack state and
does not block on an immediate read), so after the very first POLL that
dispatches a fresh command the retry count would still be 0.  The engine
instead blocks on an immediate `read_packet` after transmitting and, with no
ack forthcoming, already increments `retry_count` to 1 within that same poll
cycle. -/
theorem first_poll_already_increments_retry :
    step (scenState 0x03 [0x00, 0x0A] 1 0) (CMD_POLL, []) none =
        Except.ok (scenState 0x03 [0x00, 0x0A] 1 1) ∧
      (scenState 0x03 [0x00, 0x0A] 1 0).db.command_queue.map Command.retry_count = [0] ∧
      (scenState 0x03 [0x00, 0x0A] 1 1).db.command_queue.map Command.retry_count = [1] :=
  ⟨rfl, rfl, rfl⟩

/-- C2 (amended): missed-ack handling happens within the same poll cycle.
Dispatching the in-flight SENDING command and reading no ack frame, the
engine runs `increment_retry` immediately: the command's count rises by one,
it is FAILED once the count reaches 5 (and `pending_action_id` is cleared,
the action type surviving), otherwise it stays SENDING — dispatchable again
under its unchanged `assigned_pack_no` — and the pack counter does not
advance. -/
theorem missed_ack_handled_same_cycle (st : EngineState) (c : Command)
    (r0 : Nat) (rest : List Nat)
    (hnext : get_next_command st.db = some c)
    (hstat : c.status = CmdStatus.SENDING)
    (hhex : c.command_hex = r0 :: rest) :
    step st (CMD_POLL, []) none = Except.ok
      { db := (increment_retry st.db c.id c.retry_count).1,
        current_local_pack_no := st.current_local_pack_no,
        pending_action_id := if c.retry_count + 1 ≥ 5 then none else some c.id,
        pending_action_type := some r0 } ∧
      { c with
        retry_count := c.retry_count + 1,
        status := if c.retry_count + 1 ≥ 5 then CmdStatus.FAILED else CmdStatus.SENDING }
        ∈ (increment_retry st.db c.id c.retry_count).1.command_queue := by
  constructor
  · by_cases h5 : c.retry_count + 1 ≥ 5
    · simp [step, hnext, hstat, hhex, increment_retry, h5]
    · simp [step, hnext, hstat, hhex, increment_retry, h5]
  · have hmem := (get_next_command_mem st.db c hnext).1
    unfold increment_retry
    refine List.mem_map.mpr ⟨c, hmem, ?_⟩
    rw [if_pos rfl]

/-- Witness for C2 at the in-flight command `sendingRow` (retry count 1,
assigned pack 4). -/
theorem missed_ack_handled_same_cycle_witness :
    step sendingSt (CMD_POLL, []) none = Except.ok
      { db := (increment_retry sendingSt.db sendingRow.id sendingRow.retry_count).1,
        current_local_pack_no := sendingSt.current_local_pack_no,
        pending_action_id := if sendingRow.retry_count + 1 ≥ 5 then none else some sendingRow.id,
        pending_action_type := some 0x03 } ∧
      { sendingRow with
        retry_count := sendingRow.retry_count + 1,
        status := if sendingRow.retry_count + 1 ≥ 5 then CmdStatus.FAILED else CmdStatus.SENDING }
        ∈ (increment_retry sendingSt.db sendingRow.id sendingRow.retry_count).1.command_queue :=
  missed_ack_handled_same_cycle sendingSt sendingRow 0x03 [0x00, 0x0A] rfl rfl rfl

/-! ## Claim C9: dropped-ack escalation -/

/-- `get_next_command` only ever returns PENDING or SENDING rows, never a
FAILED one. -/
theorem get_next_command_never_failed (db : DB) (c : Command)
    (h : get_next_command db = some c) : c.status ≠ CmdStatus.FAILED := by
  have h2 := (get_next_command_mem db c h).2
  simp only [dispatchable, decide_eq_true_eq] at h2
  rcases h2 with h2 | h2 <;> simp [h2]

/-- C9: a command (arbitrary opcode byte `h0`, payload `t`) dispatched under
pack number `p` that misses its transport ack on five consecutive polls ends
FAILED with `retry_count = 5`; the same assigned pack number `p` is held
through every retry dispatch; afterwards the queue yields no dispatchable
command, and in general `get_next_command` never returns a FAILED command
again. -/
theorem dropped_ack_escalation (h0 : Nat) (t : List Nat) (p : Nat) :
    step (scenState h0 t p 0) (CMD_POLL, []) none = Except.ok (scenState h0 t p 1) ∧
      step (scenState h0 t p 1) (CMD_POLL, []) none = Except.ok (scenState h0 t p 2) ∧
      step (scenState h0 t p 2) (CMD_POLL, []) none = Except.ok (scenState h0 t p 3) ∧
      step (scenState h0 t p 3) (CMD_POLL, []) none = Except.ok (scenState h0 t p 4) ∧
      step (scenState h0 t p 4) (CMD_POLL, []) none = Except.ok (scenState h0 t p 5) ∧
      (scenState h0 t p 5).db.command_queue.map Command.status = [CmdStatus.FAILED] ∧
      (scenState h0 t p 5).db.command_queue.map Command.retry_count = [5] ∧
      (scenState h0 t p 1).db.command_queue.map Command.assigned_pack_no = [some p] ∧
      (scenState h0 t p 2).db.command_queue.map Command.assigned_pack_no = [some p] ∧
      (scenState h0 t p 3).db.command_queue.map Command.assigned_pack_no = [some p] ∧
      (scenState h0 t p 4).db.command_queue.map Command.assigned_pack_no = [some p] ∧
      (scenState h0 t p 5).db.command_queue.map Command.assigned_pack_no = [some p] ∧
      get_next_command (scenState h0 t p 5).db = none ∧
      ∀ db c, get_next_command db = some c → c.status ≠ CmdStatus.FAILED := by
  refine ⟨rfl, rfl, rfl, rfl, rfl, rfl, rfl, rfl, rfl, rfl, rfl, rfl, rfl, ?_⟩
  exact get_next_command_never_failed

/-! ## Claim C8: sequence-number invariant -/

theorem queue_map_assigned (q : List Command) (f : Command → Command)
    (hq : ∀ c ∈ q, ∀ v, c.assigned_pack_no = some v → 1 ≤ v ∧ v ≤ 255)
    (hf : ∀ c ∈ q, ∀ v, (f c).assigned_pack_no = some v →
      c.assigned_pack_no = some v ∨ (1 ≤ v ∧ v ≤ 255)) :
    ∀ c ∈ q.map f, ∀ v, c.assigned_pack_no = some v → 1 ≤ v ∧ v ≤ 255 := by
  intro c hc v hv
  rcases List.mem_map.mp hc with ⟨c0, hc0, rfl⟩
  rcases hf c0 hc0 v hv with h1 | h2
  · exact hq c0 hc0 v h1
  · exact h2

theorem update_command_result_assigned (db : DB) (i : Nat) (s : CmdStatus)
    (r : Option (List Nat)) (d : Option Details)
    (hq : ∀ c ∈ db.command_queue, ∀ v, c.assigned_pack_no = some v → 1 ≤ v ∧ v ≤ 255) :
    ∀ c ∈ (update_command_result db i s r d).command_queue, ∀ v,
      c.assigned_pack_no = some v → 1 ≤ v ∧ v ≤ 255 := by
  refine queue_map_assigned _ _ hq ?_
  intro c hc v hv
  by_cases hid : c.id = i
  · rw [if_pos hid] at hv
    exact Or.inl hv
  · rw [if_neg hid] at hv
    exact Or.inl hv

theorem increment_retry_assigned (db : DB) (i n : Nat)
    (hq : ∀ c ∈ db.command_queue, ∀ v, c.assigned_pack_no = some v → 1 ≤ v ∧ v ≤ 255) :
    ∀ c ∈ (increment_retry db i n).1.command_queue, ∀ v,
      c.assigned_pack_no = some v → 1 ≤ v ∧ v ≤ 255 := by
  refine queue_map_assigned _ _ hq ?_
  intro c hc v hv
  by_cases hid : c.id = i
  · rw [if_pos hid] at hv
    exact Or.inl hv
  · rw [if_neg hid] at hv
    exact Or.inl hv

theorem mark_as_sending_assigned (db : DB) (i pk : Nat)
    (hpk1 : 1 ≤ pk) (hpk2 : pk ≤ 255)
    (hq : ∀ c ∈ db.command_queue, ∀ v, c.assigned_pack_no = some v → 1 ≤ v ∧ v ≤ 255) :
    ∀ c ∈ (mark_as_sending db i pk).command_queue, ∀ v,
      c.assigned_pack_no = some v → 1 ≤ v ∧ v ≤ 255 := by
  refine queue_map_assigned _ _ hq ?_
  intro c hc v hv
  by_cases hid : c.id = i
  · rw [if_pos hid] at hv
    cases hv
    exact Or.inr ⟨hpk1, hpk2⟩
  · rw [if_neg hid] at hv
    exact Or.inl hv

theorem parse_vmc_data_assigned (st st' : EngineState) (cmd : Nat)
    (payload : List Nat) (h : parse_vmc_data st cmd payload = Except.ok st')
    (hq : ∀ c ∈ st.db.command_queue, ∀ v, c.assigned_pack_no = some v → 1 ≤ v ∧ v ≤ 255) :
    ∀ c ∈ st'.db.command_queue, ∀ v, c.assigned_pack_no = some v → 1 ≤ v ∧ v ≤ 255 := by
  rcases (parse_vmc_data_spec st cmd payload st' h).2.2.2 with he | ⟨i, s, r, d, he⟩
  · rw [he]
    exact hq
  · rw [he]
    refine queue_map_assigned _ _ hq ?_
    intro c hc v hv
    by_cases hid : c.id = i
    · rw [if_pos hid] at hv
      exact Or.inl hv
    · rw [if_neg hid] at hv
      exact Or.inl hv

theorem step_preserves_seqInv (st st' : EngineState) (pkt : Nat × List Nat)
    (af : Option (Nat × List Nat)) (h : step st pkt af = Except.ok st')
    (hinv : SeqInv st) : SeqInv st' := by
  obtain ⟨⟨hp1, hp2⟩, hq⟩ := hinv
  have hmod1 : 1 ≤ st.current_local_pack_no % 255 + 1 :=
    Nat.succ_le_succ (Nat.zero_le _)
  have hmod2 : st.current_local_pack_no % 255 + 1 ≤ 255 := by
    have := Nat.mod_lt st.current_local_pack_no (show 0 < 255 by norm_num)
    omega
  by_cases hpoll : pkt.1 = CMD_POLL
  · cases hg : get_next_command st.db with
    | none =>
      simp only [step, hpoll, if_true, if_pos rfl, hg] at h
      cases h
      exact ⟨⟨hp1, hp2⟩, hq⟩
    | some c =>
      cases hhex : c.command_hex with
      | nil => simp [step, hpoll, hg, hhex] at h
      | cons r0 rest =>
        by_cases hpend : c.status = CmdStatus.PENDING
        · cases af with
          | none =>
            simp only [step, hpoll, if_true, if_pos rfl, hg, hhex, hpend] at h
            cases h
            refine ⟨⟨hp1, hp2⟩, ?_⟩
            exact increment_retry_assigned _ _ _
              (mark_as_sending_assigned _ _ _ hp1 hp2 hq)
          | some a =>
            by_cases hak : a.1 = CMD_ACK
            · simp only [step, hpoll, if_true, if_pos rfl, hg, hhex, hpend, hak] at h
              cases h
              refine ⟨⟨hmod1, hmod2⟩, ?_⟩
              exact update_command_result_assigned _ _ _ _ _
                (mark_as_sending_assigned _ _ _ hp1 hp2 hq)
            · simp only [step, hpoll, if_true, if_pos rfl, hg, hhex, hpend] at h
              rw [if_neg (by simp [hak])] at h
              cases h
              refine ⟨⟨hp1, hp2⟩, ?_⟩
              exact increment_retry_assigned _ _ _
                (mark_as_sending_assigned _ _ _ hp1 hp2 hq)
        · cases af with
          | none =>
            simp only [step, hpoll, if_true, if_pos rfl, hg, hhex, hpend] at h
            cases h
            refine ⟨⟨hp1, hp2⟩, ?_⟩
            exact increment_retry_assigned _ _ _ hq
          | some a =>
            by_cases hak : a.1 = CMD_ACK
            · simp only [step, hpoll, if_true, if_pos rfl, hg, hhex, hpend, hak] at h
              cases h
              refine ⟨⟨hmod1, hmod2⟩, ?_⟩
              exact update_command_result_assigned _ _ _ _ _ hq
            · simp only [step, hpoll, if_true, if_pos rfl, hg, hhex, hpend] at h
              rw [if_neg (by simp [hak])] at h
              cases h
              refine ⟨⟨hp1, hp2⟩, ?_⟩
              exact increment_retry_assigned _ _ _ hq
  · by_cases hackf : pkt.1 = CMD_ACK
    · simp only [step, hpoll, hackf, if_false, if_true, if_pos rfl] at h
      cases h
      exact ⟨⟨hp1, hp2⟩, hq⟩
    · have h2 : parse_vmc_data st pkt.1 pkt.2 = Except.ok st' := by
        simpa [step, hpoll, hackf] using h
      have hs := parse_vmc_data_spec st pkt.1 pkt.2 st' h2
      refine ⟨?_, parse_vmc_data_assigned st st' pkt.1 pkt.2 h2 hq⟩
      rw [hs.2.2.1]
      exact ⟨hp1, hp2⟩

theorem step_pack_change (st st' : EngineState) (pkt : Nat × List Nat)
    (af : Option (Nat × List Nat)) (h : step st pkt af = Except.ok st') :
    st'.current_local_pack_no = st.current_local_pack_no ∨
      st'.current_local_pack_no = st.current_local_pack_no % 255 + 1 := by
  by_cases hpoll : pkt.1 = CMD_POLL
  · cases hg : get_next_command st.db with
    | none =>
      simp only [step, hpoll, if_true, if_pos rfl, hg] at h
      cases h
      exact Or.inl rfl
    | some c =>
      cases hhex : c.command_hex with
      | nil => simp [step, hpoll, hg, hhex] at h
      | cons r0 rest =>
        by_cases hpend : c.status = CmdStatus.PENDING
        · cases af with
          | none =>
            simp only [step, hpoll, if_true, if_pos rfl, hg, hhex, hpend] at h
            cases h
            exact Or.inl rfl
          | some a =>
            by_cases hak : a.1 = CMD_ACK
            · simp only [step, hpoll, if_true, if_pos rfl, hg, hhex, hpend, hak] at h
              cases h
              exact Or.inr rfl
            · simp only [step, hpoll, if_true, if_pos rfl, hg, hhex, hpend] at h
              rw [if_neg (by simp [hak])] at h
              cases h
              exact Or.inl rfl
        · cases af with
          | none =>
            simp only [step, hpoll, if_true, if_pos rfl, hg, hhex, hpend] at h
            cases h
            exact Or.inl rfl
          | some a =>
            by_cases hak : a.1 = CMD_ACK
            · simp only [step, hpoll, if_true, if_pos rfl, hg, hhex, hpend, hak] at h
              cases h
              exact Or.inr rfl
            · simp only [step, hpoll, if_true, if_pos rfl, hg, hhex, hpend] at h
              rw [if_neg (by simp [hak])] at h
              cases h
              exact Or.inl rfl
  · by_cases hackf : pkt.1 = CMD_ACK
    · simp only [step, hpoll, hackf, if_false, if_true, if_pos rfl] at h
      cases h
      exact Or.inl rfl
    · have h2 : parse_vmc_data st pkt.1 pkt.2 = Except.ok st' := by
        simpa [step, hpoll, hackf] using h
      exact Or.inl (parse_vmc_data_spec st pkt.1 pkt.2 st' h2).2.2.1

theorem reachable_seqInv (st : EngineState) (h : Reachable st) : SeqInv st := by
  induction h with
  | init =>
    refine ⟨⟨le_refl 1, by decide⟩, ?_⟩
    intro c hc
    simp [initState] at hc
  | enqueue st nid hx hr ih =>
    refine ⟨ih.1, ?_⟩
    intro c hc v hv
    unfold add_command at hc
    rcases List.mem_append.mp hc with h1 | h2
    · exact ih.2 c h1 v hv
    · simp only [List.mem_singleton] at h2
      subst h2
      cases hv
  | step st st' pkt af hr heq ih =>
    exact step_preserves_seqInv st st' pkt af heq ih

theorem step_pack_advance_only_on_ack (st st' : EngineState)
    (pkt : Nat × List Nat) (af : Option (Nat × List Nat))
    (h : step st pkt af = Except.ok st')
    (hne : st'.current_local_pack_no ≠ st.current_local_pack_no) :
    pkt.1 = CMD_POLL ∧ ∃ a, af = some a ∧ a.1 = CMD_ACK ∧
      st'.current_local_pack_no = st.current_local_pack_no % 255 + 1 := by
  by_cases hpoll : pkt.1 = CMD_POLL
  · cases hg : get_next_command st.db with
    | none =>
      simp only [step, hpoll, if_true, if_pos rfl, hg] at h
      cases h
      exact absurd rfl hne
    | some c =>
      cases hhex : c.command_hex with
      | nil => simp [step, hpoll, hg, hhex] at h
      | cons r0 rest =>
        by_cases hpend : c.status = CmdStatus.PENDING
        · cases af with
          | none =>
            simp only [step, hpoll, if_true, if_pos rfl, hg, hhex, hpend] at h
            cases h
            exact absurd rfl hne
          | some a =>
            by_cases hak : a.1 = CMD_ACK
            · simp only [step, hpoll, if_true, if_pos rfl, hg, hhex, hpend, hak] at h
              cases h
              exact ⟨hpoll, a, rfl, hak, rfl⟩
            · simp only [step, hpoll, if_true, if_pos rfl, hg, hhex, hpend] at h
              rw [if_neg (by simp [hak])] at h
              cases h
              exact absurd rfl hne
        · cases af with
          | none =>
            simp only [step, hpoll, if_true, if_pos rfl, hg, hhex, hpend] at h
            cases h
            exact absurd rfl hne
          | some a =>
            by_cases hak : a.1 = CMD_ACK
            · simp only [step, hpoll, if_true, if_pos rfl, hg, hhex, hpend, hak] at h
              cases h
              exact ⟨hpoll, a, rfl, hak, rfl⟩
            · simp only [step, hpoll, if_true, if_pos rfl, hg, hhex, hpend] at h
              rw [if_neg (by simp [hak])] at h
              cases h
              exact absurd rfl hne
  · by_cases hackf : pkt.1 = CMD_ACK
    · simp only [step, hpoll, hackf, if_false, if_true, if_pos rfl] at h
      cases h
      exact absurd rfl hne
    · have h2 : parse_vmc_data st pkt.1 pkt.2 = Except.ok st' := by
        simpa [step, hpoll, hackf] using h
      exact absurd (parse_vmc_data_spec st pkt.1 pkt.2 st' h2).2.2.1 hne

/-- C8: sequence (pack) numbers stay in [1,255].  For every reachable engine
state the rotating counter is in [1,255] and every pack number assigned to a
queued command is in [1,255] (0 is never assigned); the counter starts at 1
and a successful poll-loop iteration either leaves it unchanged or advances
it to `n % 255 + 1` — so it is advanced only on a confirmed transport ack,
and the successor of 255 is `255 % 255 + 1 = 1`, never 0. -/
theorem sequence_numbers_in_range :
    (∀ st, Reachable st →
      (1 ≤ st.current_local_pack_no ∧ st.current_local_pack_no ≤ 255) ∧
        ∀ c ∈ st.db.command_queue, ∀ q, c.assigned_pack_no = some q →
          1 ≤ q ∧ q ≤ 255) ∧
      (∀ st st' pkt af, step st pkt af = Except.ok st' →
        st'.current_local_pack_no = st.current_local_pack_no ∨
          st'.current_local_pack_no = st.current_local_pack_no % 255 + 1) ∧
      (∀ st st' pkt af, step st pkt af = Except.ok st' →
        st'.current_local_pack_no ≠ st.current_local_pack_no →
        pkt.1 = CMD_POLL ∧ ∃ a, af = some a ∧ a.1 = CMD_ACK ∧
          st'.current_local_pack_no = st.current_local_pack_no % 255 + 1) ∧
      initState.current_local_pack_no = 1 ∧ 255 % 255 + 1 = 1 :=
  ⟨fun st h => reachable_seqInv st h,
    fun st st' pkt af h => step_pack_change st st' pkt af h,
    fun st st' pkt af h hne => step_pack_advance_only_on_ack st st' pkt af h hne,
    rfl, rfl⟩

/-- Witness for C8 at the initial state. -/
theorem sequence_numbers_in_range_witness :
    1 ≤ initState.current_local_pack_no ∧ initState.current_local_pack_no ≤ 255 :=
  (sequence_numbers_in_range.1 initState Reachable.init).1

/-- Witness for C9 (scenario instantiated at the dispense command 0x03 with
selection 10 under pack number 1): the first missed-ack poll cycle. -/
theorem dropped_ack_escalation_witness :
    step (scenState 0x03 [0x00, 0x0A] 7 0) (CMD_POLL, []) none =
      Except.ok (scenState 0x03 [0x00, 0x0A] 7 1) :=
  (dropped_ack_escalation 0x03 [0x00, 0x0A] 7).1
